import Mathlib

/-
Shallow embedding of the price-tracker backend (TypeScript) core:
the scraper/extractor pipeline (scraperService.ts, scraperConfig.ts),
the reconciliation engine and scheduler (schedulerServicePostgres.ts),
and the product store operations (productServicePostgres.ts).

JavaScript numbers that flow through the scraping pipeline are modelled by
the type JsNum: either a rational value or NaN (the result of a failed
parseFloat).  Strict equality (the === operator on numbers, under which
NaN === NaN is false) is modelled by jsNumEq.  Exponent notation of
parseFloat is not modelled: the prices handled by the pipeline are plain
decimal strings.  JSON numeric literals appearing as offer prices are
modelled by their decimal string rendering.
-/

set_option autoImplicit false

namespace PriceTracker

/-- A JavaScript number: a rational value or NaN. -/
inductive JsNum where
  | num (q : ℚ)
  | nan
deriving DecidableEq, Repr

/-- Strict equality (the === operator) on JavaScript numbers: NaN is not
equal to anything, including itself. -/
def jsNumEq : JsNum → JsNum → Bool
  | .num a, .num b => a == b
  | _, _ => false

/-- Truthiness of a JavaScript number: 0 and NaN are falsy. -/
def JsNum.truthy : JsNum → Bool
  | .num q => q != 0
  | .nan => false

/-- Numeric value of a list of decimal digit characters. -/
def digitsVal (l : List Char) : ℕ :=
  l.foldl (fun a c => a * 10 + (c.toNat - Char.toNat (Char.ofNat 48))) 0

/-- Model of the JavaScript parseFloat builtin on the decimal fragment it is
applied to in this code base: optional sign, integer digits, optional dot and
fraction digits; yields NaN when no digit is found. -/
def jsParseFloat (s : String) : JsNum :=
  let cs := s.toList.dropWhile Char.isWhitespace
  let signed : Bool × List Char :=
    match cs with
    | c :: rest => if c = Char.ofNat 45 then (true, rest)
                   else if c = Char.ofNat 43 then (false, rest)
                   else (false, cs)
    | [] => (false, cs)
  let intPart := signed.2.takeWhile Char.isDigit
  let rest := signed.2.dropWhile Char.isDigit
  let fracPart : List Char :=
    match rest with
    | c :: r => if c = Char.ofNat 46 then r.takeWhile Char.isDigit else []
    | [] => []
  if intPart.isEmpty && fracPart.isEmpty then .nan
  else
    let den : ℕ := Nat.pow 10 fracPart.length
    let numerator : ℕ := digitsVal intPart * den + digitsVal fracPart
    let v : ℚ := mkRat (Int.ofNat numerator) den
    .num (if signed.1 then -v else v)

/-- The JavaScript expression `a || b` where `a` is a possibly-absent string
(undefined and the empty string are falsy) and `b` is a string. -/
def jsOrStr (a : Option String) (b : String) : String :=
  match a with
  | some s => if s = "" then b else s
  | none => b

/-- Truthiness of a possibly-absent string. -/
def jsTruthyStr (a : Option String) : Bool :=
  match a with
  | some s => s != ""
  | none => false

/-- ScrapedProductData from scraperService.ts: the transient Snapshot
produced by one scrape.  All fields optional. -/
structure ScrapedProductData where
  name : Option String := none
  price : Option JsNum := none
  currency : Option String := none
  availability : Option String := none
  image : Option String := none
  description : Option String := none
  sku : Option String := none
  mpn : Option String := none
deriving DecidableEq, Repr

/-- The image field of a JSON-LD object: absent, a single string, or an
array of strings. -/
inductive JsonImage where
  | absent
  | str (s : String)
  | arr (l : List String)
deriving DecidableEq, Repr

/-- A parsed JSON-LD object, restricted to the fields extractJsonLd reads.
Offer prices are modelled by their decimal string rendering. -/
structure JsonLdObj where
  atType : Option String := none
  name : Option String := none
  image : JsonImage := .absent
  sku : Option String := none
  mpn : Option String := none
  description : Option String := none
  offersPrice : Option String := none
  offersCurrency : Option String := none
  offersAvailability : Option String := none
deriving DecidableEq, Repr

/-- One script block of type application/ld+json: none models a block with
no content or whose JSON fails to parse (both are skipped by the catch). -/
def ScriptBlock := Option JsonLdObj

/-- The outer guard of extractJsonLd: the condition
`!targetType || jsonData["@type"] === targetType`. -/
def typeGateOpen (targetType : Option String) (j : JsonLdObj) : Bool :=
  match targetType with
  | none => true
  | some t => if t = "" then true else j.atType == some t

/-- Field mapping performed by extractJsonLd once a block is accepted. -/
def mapJsonLdProduct (j : JsonLdObj) : ScrapedProductData :=
  { name := some (jsOrStr j.name "")
    image :=
      match j.image with
      | .arr l => l.head?
      | .str s => some (jsOrStr (some s) "")
      | .absent => some ""
    sku := some (jsOrStr j.sku "")
    mpn := some (jsOrStr j.mpn "")
    description := some (jsOrStr j.description "")
    price :=
      match j.offersPrice with
      | some s => if s ≠ "" then some (jsParseFloat s) else none
      | none => none
    currency := some (jsOrStr j.offersCurrency "INR")
    availability := some (jsOrStr j.offersAvailability "Unknown") }

/-- extractJsonLd from scraperService.ts: iterate the script blocks; skip
blocks with no content or failing to parse; the loop body assigns the
snapshot and breaks only when the type gate is open and the declared type is
the literal "Product".  The result is none exactly when the scraped object
stayed the empty object (zero keys). -/
def extractJsonLd (blocks : List (Option JsonLdObj)) (targetType : Option String) :
    Option ScrapedProductData :=
  match blocks with
  | [] => none
  | none :: rest => extractJsonLd rest targetType
  | some j :: rest =>
    if typeGateOpen targetType j && j.atType == some "Product" then
      some (mapJsonLdProduct j)
    else
      extractJsonLd rest targetType

/-- The cheerio query interface that scrapeWithSelectors consumes, modelled
as an abstract document: the content attribute of the first match of a
selector, the text of the first match (empty when no match), an arbitrary
attribute of the first match, and the list of JSON-LD script blocks. -/
structure Dom where
  attrContent : String → Option String
  firstText : String → String
  firstAttr : String → String → Option String
  jsonLd : List (Option JsonLdObj)

/-- The selector.startsWith("meta[") test, written over the character list
so that it reduces structurally. -/
def startsWithMeta (sel : String) : Bool :=
  sel.toList.take 5 == "meta[".toList

/-- The JavaScript String.prototype.trim, written over the character list so
that it reduces structurally. -/
def jsTrim (s : String) : String :=
  String.mk (((s.toList.dropWhile Char.isWhitespace).reverse.dropWhile
    Char.isWhitespace).reverse)

/-- extractFirst from scraperService.ts: iterate the selector list; for
selectors starting with "meta[" read the content attribute, otherwise the
trimmed text of the first match; return the first non-empty result. -/
def extractFirst (dom : Dom) : List String → Option String
  | [] => none
  | sel :: rest =>
    if startsWithMeta sel then
      match dom.attrContent sel with
      | some c => if jsTrim c ≠ "" then some (jsTrim c) else extractFirst dom rest
      | none => extractFirst dom rest
    else
      let t := jsTrim (dom.firstText sel)
      if t ≠ "" then some t else extractFirst dom rest

/-- The inner attribute loop of extractFirstAttr for one selector. -/
def attrLookup (dom : Dom) (sel : String) : List String → Option String
  | [] => none
  | a :: rest =>
    match dom.firstAttr sel a with
    | some v => if jsTrim v ≠ "" then some (jsTrim v) else attrLookup dom sel rest
    | none => attrLookup dom sel rest

/-- extractFirstAttr from scraperService.ts: for each selector, return the
first attribute in the fallback list whose value is non-empty. -/
def extractFirstAttr (dom : Dom) (sels : List String) (attrs : List String) : Option String :=
  match sels with
  | [] => none
  | sel :: rest =>
    match attrLookup dom sel attrs with
    | some v => some v
    | none => extractFirstAttr dom rest attrs

/-- The regex replace stripping every character other than a digit or a
dot, applied to price text before parseFloat. -/
def stripNonNumDot (s : String) : String :=
  String.mk (s.toList.filter (fun c => c.isDigit || c = Char.ofNat 46))

/-- SiteSelectors from scraperConfig.ts. -/
structure SiteSelectors where
  name : List String
  price : List String
  currency : List String
  availability : List String
  image : List String
  description : List String
deriving DecidableEq, Repr

/-- ScraperSiteConfig from scraperConfig.ts.  An absent useJsonLd flag is
falsy, modelled by the default false. -/
structure ScraperSiteConfig where
  domain : String
  selectors : SiteSelectors
  useJsonLd : Bool := false
  jsonLdType : Option String := none
deriving DecidableEq, Repr

/-- scrapeWithSelectors from scraperService.ts: selector-list extraction.
Note the final price guard `price && !isNaN(price)`: a parsed price of 0 or
NaN is dropped (0 is falsy). -/
def scrapeWithSelectors (dom : Dom) (config : ScraperSiteConfig) : ScrapedProductData :=
  let name := extractFirst dom config.selectors.name
  let priceText := extractFirst dom config.selectors.price
  let price : Option JsNum := priceText.map (fun t => jsParseFloat (stripNonNumDot t))
  let currency :=
    jsOrStr (extractFirst dom config.selectors.currency)
      (if config.domain = "flipkart" then "INR" else "USD")
  let availability := jsOrStr (extractFirst dom config.selectors.availability) "Unknown"
  let image := extractFirstAttr dom config.selectors.image ["src", "content", "data-src"]
  let description := extractFirst dom config.selectors.description
  { name := name
    price :=
      match price with
      | some v => if v.truthy then some v else none
      | none => none
    currency := some currency
    availability := some availability
    image := image
    description := description }

/-- The extraction stage of scrapeProduct from scraperService.ts (after URL
validation, inter-request delay and fetch): run JSON-LD extraction when the
site config requests it and return its result when the scraped object has at
least one key; otherwise fall back to selector extraction. -/
def scrapeProductExtract (dom : Dom) (siteConfig : ScraperSiteConfig) : ScrapedProductData :=
  if siteConfig.useJsonLd then
    match extractJsonLd dom.jsonLd siteConfig.jsonLdType with
    | some d => d
    | none => scrapeWithSelectors dom siteConfig
  else
    scrapeWithSelectors dom siteConfig

/-- The myntra entry of scraperConfig.ts, the one site configured to use
JSON-LD first. -/
def myntraConfig : ScraperSiteConfig :=
  { domain := "myntra"
    useJsonLd := true
    jsonLdType := some "Product"
    selectors :=
      { name := [".pdp-title", ".pdp-name"]
        price := [".pdp-price strong", ".pdp-mrp strong"]
        currency := []
        availability := [".size-buttons-size-button"]
        image := [".image-grid-image"]
        description := [".pdp-product-description-content"] } }

/-- A failure of one fetch attempt: an HTTP response with an error status,
an axios error with no response (network error or timeout), or a non-axios
error. -/
inductive FetchFailure where
  | httpError (status : ℕ)
  | networkError
  | nonAxios
deriving DecidableEq, Repr

/-- isRetryableError from scraperService.ts: axios errors with no response
are retryable, responses with status 5xx or 429 are retryable, everything
else is terminal. -/
def isRetryableError : FetchFailure → Bool
  | .networkError => true
  | .httpError s => decide (500 ≤ s) || s == 429
  | .nonAxios => false

/-- Whether axios.isAxiosError holds of a failure. -/
def isAxiosFailure : FetchFailure → Bool
  | .nonAxios => false
  | _ => true

/-- The value fetchHTML resolves or rejects with: the response body, the
FetchError raised after the retry budget (carrying the configured retries
count used in its message), a rethrown non-axios error, or the unknown-error
fallback. -/
inductive FetchResult where
  | ok (html : String)
  | fetchError (retries : ℕ)
  | otherError
  | unknownError
deriving DecidableEq, Repr

/-- Observable trace of one fetchHTML call: its result, the number of
request attempts issued, and the sleeps between attempts in order. -/
structure FetchTrace where
  result : FetchResult
  attempts : ℕ
  delays : List ℕ
deriving DecidableEq, Repr

/-- The code after the retry loop of fetchHTML: wrap an axios lastError in
a FetchError, rethrow a non-axios lastError, or raise the unknown-error
fallback when no attempt ran. -/
def finalizeFetch (lastError : Option FetchFailure) (retries attempts : ℕ)
    (delays : List ℕ) : FetchTrace :=
  match lastError with
  | some e => if isAxiosFailure e then ⟨.fetchError retries, attempts, delays⟩
              else ⟨.otherError, attempts, delays⟩
  | none => ⟨.unknownError, attempts, delays⟩

/-- The retry loop of fetchHTML.  respond gives the outcome of each
1-based attempt; k is the number of attempts still allowed (so the current
attempt is the last one exactly when k = 1); curDelay is the current backoff
delay, multiplied by mult after every sleep. -/
def fetchLoop (respond : ℕ → Except FetchFailure String) (retries mult : ℕ) :
    ℕ → ℕ → ℕ → Option FetchFailure → ℕ → List ℕ → FetchTrace
  | 0, _, _, lastError, attempts, delays => finalizeFetch lastError retries attempts delays
  | k + 1, attempt, curDelay, _, attempts, delays =>
    match respond attempt with
    | .ok html => ⟨.ok html, attempts + 1, delays⟩
    | .error e =>
      if !isRetryableError e || k == 0 then
        finalizeFetch (some e) retries (attempts + 1) delays
      else
        fetchLoop respond retries mult k (attempt + 1) (curDelay * mult) (some e)
          (attempts + 1) (delays ++ [curDelay])

/-- fetchHTML from scraperService.ts, as a function of the per-attempt
outcomes and the configuration (retries budget, initial retry delay, backoff
multiplier). -/
def fetchHTML (respond : ℕ → Except FetchFailure String) (retries retryDelay mult : ℕ) :
    FetchTrace :=
  fetchLoop respond retries mult retries 1 retryDelay none 0 []

/-- A row of the Product table (Prisma model), restricted to the columns
the services read or write.  Prices are Float columns, hence JsNum. -/
structure Product where
  id : String
  url : String
  name : String
  domain : String
  currency : String
  availability : String
  currentPrice : JsNum
  targetPrice : Option JsNum := none
  image : Option String := none
  sku : Option String := none
  mpn : Option String := none
  brand : Option String := none
  articleType : String := ""
  subCategory : String := ""
  masterCategory : String := ""
  doesMetadataUpdated : Bool := true
  lastCheckedAt : Option ℕ := none
deriving DecidableEq, Repr

/-- A row of the PriceHistory table. -/
structure PriceRow where
  productId : String
  price : JsNum
  availability : Option String := none
  checkedAt : ℕ
deriving DecidableEq, Repr

/-- The state of one tracked product: its Product row together with its
PriceHistory rows, oldest first (the newest row is the last). -/
structure ProductState where
  product : Product
  history : List PriceRow
deriving DecidableEq, Repr

/-- The outcome of the scrapeProduct call made for one product: either the
promise rejects (invalid URL, FetchError, rethrown error) or it resolves
with a Snapshot. -/
inductive ScrapeOutcome where
  | throws
  | snapshot (s : ScrapedProductData)
deriving DecidableEq, Repr

/-- The dynamic updateData object built by checkAndUpdateProductPrice: a
field is some v exactly when the corresponding key was assigned.  The image
key can be assigned the value undefined (both scraped and stored image
falsy), which Prisma skips; writing the stored value back is extensionally
the same. -/
structure UpdateData where
  currentPrice : Option JsNum := none
  availability : Option String := none
  name : Option String := none
  image : Option (Option String) := none
  currency : Option String := none
  doesMetadataUpdated : Option Bool := none
deriving DecidableEq, Repr

/-- Whether updateData has zero keys (Object.keys(updateData).length = 0). -/
def UpdateData.isEmpty (u : UpdateData) : Bool :=
  u.currentPrice == none && u.availability == none && u.name == none &&
    u.image == none && u.currency == none && u.doesMetadataUpdated == none

/-- The updateData object assembled by checkAndUpdateProductPrice from the
snapshot, the scraped price and the stored row. -/
def buildUpdateData (scraped : ScrapedProductData) (price : JsNum) (p : Product)
    (priceChanged : Bool) : UpdateData :=
  let u : UpdateData := {}
  let u := if priceChanged then { u with currentPrice := some price } else u
  let u :=
    if jsTruthyStr scraped.availability && scraped.availability != some p.availability then
      { u with availability := scraped.availability }
    else u
  if !p.doesMetadataUpdated then
    { u with
      name := some (jsOrStr scraped.name p.name)
      image := some (if jsTruthyStr scraped.image then scraped.image else p.image)
      currency := some (jsOrStr scraped.currency p.currency)
      doesMetadataUpdated := some true }
  else u

/-- productService.updateProduct applied to one row: overwrite exactly the
assigned fields. -/
def applyUpdate (u : UpdateData) (p : Product) : Product :=
  { p with
    currentPrice := u.currentPrice.getD p.currentPrice
    availability := u.availability.getD p.availability
    name := u.name.getD p.name
    image := u.image.getD p.image
    currency := u.currency.getD p.currency
    doesMetadataUpdated := u.doesMetadataUpdated.getD p.doesMetadataUpdated }

/-- addPriceToHistory from productServicePostgres.ts: append one row with
the given price and availability (the scheduler passes no availability). -/
def addPriceToHistory (productId : String) (price : JsNum) (availability : Option String)
    (now : ℕ) (history : List PriceRow) : List PriceRow :=
  history ++ [{ productId := productId, price := price, availability := availability,
                checkedAt := now }]

/-- The body of checkAndUpdateProductPrice once the scrape resolved with a
Snapshot: return unmutated state when the snapshot has no price; otherwise
diff, issue the single product update when updateData is non-empty, and
append a PriceHistory row when the price changed. -/
def reconcileSnapshot (scraped : ScrapedProductData) (st : ProductState) (now : ℕ) :
    ProductState :=
  match scraped.price with
  | none => st
  | some currentPrice =>
    let p := st.product
    let priceChanged := !jsNumEq p.currentPrice currentPrice
    let u := buildUpdateData scraped currentPrice p priceChanged
    let p1 := if u.isEmpty then p else applyUpdate u p
    let hist1 :=
      if priceChanged then addPriceToHistory p.id currentPrice none now st.history
      else st.history
    ⟨p1, hist1⟩

/-- checkAndUpdateProductPrice from schedulerServicePostgres.ts, as a
function of the scrape outcome: a rejected scrape propagates as an error
(state untouched); a resolved scrape runs the reconciliation body and the
promise resolves. -/
def checkAndUpdateProductPrice (outcome : ScrapeOutcome) (st : ProductState) (now : ℕ) :
    Except Unit ProductState :=
  match outcome with
  | .throws => .error ()
  | .snapshot s => .ok (reconcileSnapshot s st now)

/-- Accumulator of the per-product loop of checkAllProductPrices. -/
structure BatchAcc where
  successCount : ℕ := 0
  failureCount : ℕ := 0
  successfulProductIds : List String := []
  states : List ProductState := []
deriving DecidableEq, Repr

/-- Result of one checkAllProductPrices run: the tallies, the ids passed to
the bulk lastChecked update, and the resulting product states in input
order. -/
structure BatchResult where
  successCount : ℕ
  failureCount : ℕ
  successfulProductIds : List String
  states : List ProductState
deriving DecidableEq, Repr

/-- One step of the batch loop: a resolved promise bumps successCount and
records the product id; a rejected one bumps failureCount and leaves the
product state untouched. -/
def batchStep (now : ℕ) (acc : BatchAcc) (item : ProductState × ScrapeOutcome) : BatchAcc :=
  match checkAndUpdateProductPrice item.2 item.1 now with
  | .ok st1 =>
    { acc with
      successCount := acc.successCount + 1
      successfulProductIds := acc.successfulProductIds ++ [item.1.product.id]
      states := acc.states ++ [st1] }
  | .error _ =>
    { acc with failureCount := acc.failureCount + 1, states := acc.states ++ [item.1] }

/-- updateLastChecked from productServicePostgres.ts applied to the batch
states: set lastCheckedAt to now on every product whose id is listed. -/
def updateLastChecked (ids : List String) (now : ℕ) (states : List ProductState) :
    List ProductState :=
  states.map fun st =>
    if st.product.id ∈ ids then
      { st with product := { st.product with lastCheckedAt := some now } }
    else st

/-- checkAllProductPrices from schedulerServicePostgres.ts, as a function of
each product state and the outcome of its scrape: run every product, tally
successes and failures, then issue the bulk lastChecked update over the
successful ids (skipped when the list is empty, which changes nothing). -/
def checkAllProductPrices (items : List (ProductState × ScrapeOutcome)) (now : ℕ) :
    BatchResult :=
  let acc := items.foldl (batchStep now) {}
  { successCount := acc.successCount
    failureCount := acc.failureCount
    successfulProductIds := acc.successfulProductIds
    states := updateLastChecked acc.successfulProductIds now acc.states }

/-- The node-cron ScheduledTask held by the scheduler, carrying the cron
expression it was created with. -/
structure CronJob where
  expression : String
deriving DecidableEq, Repr

/-- The state of SchedulerServicePostgres: its single nullable
priceCheckJob field. -/
structure SchedulerState where
  priceCheckJob : Option CronJob := none
deriving DecidableEq, Repr

/-- startPriceChecker from schedulerServicePostgres.ts: when a job already
exists, log and return; otherwise create the scheduled job. -/
def startPriceChecker (cronExpression : String) (s : SchedulerState) : SchedulerState :=
  match s.priceCheckJob with
  | some _ => s
  | none => { priceCheckJob := some { expression := cronExpression } }

/-- stopPriceChecker from schedulerServicePostgres.ts: stop and clear the
job when one exists, otherwise log and do nothing. -/
def stopPriceChecker (s : SchedulerState) : SchedulerState :=
  match s.priceCheckJob with
  | some _ => { priceCheckJob := none }
  | none => s

/-- isRunning from schedulerServicePostgres.ts. -/
def isRunning (s : SchedulerState) : Bool :=
  s.priceCheckJob != none

/-- triggerManualPriceCheck from schedulerServicePostgres.ts: run one batch
(checkAllProductPrices); the scheduler job field is not touched. -/
def triggerManualPriceCheck (s : SchedulerState) (items : List (ProductState × ScrapeOutcome))
    (now : ℕ) : SchedulerState × BatchResult :=
  (s, checkAllProductPrices items now)

/-- The product store: the Product table and the PriceHistory table. -/
structure Store where
  products : List Product
  history : List PriceRow
deriving DecidableEq, Repr

/-- findProductByUrl from productServicePostgres.ts (findUnique on the
unique url column). -/
def findProductByUrl (store : Store) (url : String) : Option Product :=
  store.products.find? (fun p => p.url = url)

/-- The input object of createProduct from productServicePostgres.ts. -/
structure CreateProductInput where
  name : String
  url : String
  currentPrice : JsNum
  domain : String
  brand : Option String := none
  image : Option String := none
  productId : String
  articleType : Option String := none
  subCategory : Option String := none
  masterCategory : Option String := none
  currency : Option String := none
  availability : Option String := none
deriving DecidableEq, Repr

/-- createProduct from productServicePostgres.ts: return the existing
product unchanged when one with the same URL exists; otherwise insert the
product together with its seed PriceHistory row.  The database-generated id
and clock are passed in as newId and now; doesMetadataUpdated takes its
schema default. -/
def createProduct (productData : CreateProductInput) (store : Store) (newId : String)
    (now : ℕ) : Product × Store :=
  match findProductByUrl store productData.url with
  | some existingProduct => (existingProduct, store)
  | none =>
    let p : Product :=
      { id := newId
        name := productData.name
        url := productData.url
        currentPrice := productData.currentPrice
        domain := productData.domain
        brand := productData.brand
        image := productData.image
        sku := some productData.productId
        mpn := some productData.productId
        currency := "INR"
        availability := "InStock"
        articleType := jsOrStr productData.articleType ""
        subCategory := jsOrStr productData.subCategory ""
        masterCategory := jsOrStr productData.masterCategory "" }
    (p, { products := store.products ++ [p]
          history := store.history ++
            [{ productId := newId, price := productData.currentPrice,
               availability := some "InStock", checkedAt := now }] })

/-- The JavaScript expression `scrapedData.price || 0`: an absent price,
a price of 0 and a NaN price are all falsy and collapse to 0. -/
def jsNumOrZero : Option JsNum → JsNum
  | some (.num q) => if q = 0 then .num 0 else .num q
  | some .nan => .num 0
  | none => .num 0

/-- createProductByUrl from productServicePostgres.ts: return the existing
product unchanged when one with the same URL exists; otherwise scrape the
URL (outcome passed in; a rejected scrape propagates), and insert the
product with currentPrice `scrapedData.price || 0` together with its seed
PriceHistory row of the same price.  domainOpt is the getDomain(url)
result. -/
def createProductByUrl (url : String) (outcome : ScrapeOutcome) (domainOpt : Option String)
    (store : Store) (newId : String) (now : ℕ) : Except Unit (Product × Store) :=
  match findProductByUrl store url with
  | some existingProduct => .ok (existingProduct, store)
  | none =>
    match outcome with
    | .throws => .error ()
    | .snapshot scrapedData =>
      let seedPrice := jsNumOrZero scrapedData.price
      let p : Product :=
        { id := newId
          name := jsOrStr scrapedData.name "Unknown"
          image := scrapedData.image
          url := url
          domain := jsOrStr domainOpt "unknown.com"
          currency := jsOrStr scrapedData.currency "INR"
          availability := jsOrStr scrapedData.availability "InStock"
          sku := scrapedData.sku
          mpn := scrapedData.mpn
          currentPrice := seedPrice }
      .ok (p, { products := store.products ++ [p]
                history := store.history ++
                  [{ productId := newId, price := seedPrice,
                     availability := some (jsOrStr scrapedData.availability "InStock"),
                     checkedAt := now }] })

/- Sample data used by the concrete witnesses. -/

/-- A stored product with currentPrice 999 and filled metadata. -/
def sampleProduct : Product :=
  { id := "p1", url := "https://example.com/a", name := "Widget", domain := "example.com",
    currency := "INR", availability := "InStock", currentPrice := .num 999 }

/-- The seed PriceHistory row of sampleProduct. -/
def sampleSeedRow : PriceRow :=
  { productId := "p1", price := .num 999, availability := some "InStock", checkedAt := 0 }

/-- sampleProduct together with its seed history row. -/
def sampleState : ProductState := ⟨sampleProduct, [sampleSeedRow]⟩

/-- A snapshot whose price equals the stored price of sampleProduct. -/
def snap999 : ScrapedProductData := { price := some (.num 999) }

/-- A snapshot with a changed price. -/
def snap799 : ScrapedProductData := { price := some (.num 799) }

/-- A snapshot that carries no price. -/
def noPriceSnap : ScrapedProductData := { name := some "X" }

/- Helper lemmas about the update object. -/

theorem jsNumEq_num_self (q : ℚ) : jsNumEq (.num q) (.num q) = true := by
  simp [jsNumEq]

theorem buildUpdateData_currentPrice_of_unchanged (s : ScrapedProductData) (price : JsNum)
    (p : Product) : (buildUpdateData s price p false).currentPrice = none := by
  unfold buildUpdateData
  dsimp only
  split <;> split <;> rfl

theorem buildUpdateData_currentPrice_of_changed (s : ScrapedProductData) (price : JsNum)
    (p : Product) : (buildUpdateData s price p true).currentPrice = some price := by
  unfold buildUpdateData
  dsimp only
  split <;> split <;> rfl

theorem buildUpdateData_metadata_done (s : ScrapedProductData) (price : JsNum) (p : Product)
    (ch : Bool) (h : p.doesMetadataUpdated = true) :
    (buildUpdateData s price p ch).name = none ∧
    (buildUpdateData s price p ch).image = none ∧
    (buildUpdateData s price p ch).currency = none := by
  unfold buildUpdateData
  rw [h]
  cases ch <;> simp [apply_ite]

theorem buildUpdateData_metadata_missing (s : ScrapedProductData) (price : JsNum) (p : Product)
    (ch : Bool) (h : p.doesMetadataUpdated = false) :
    (buildUpdateData s price p ch).doesMetadataUpdated = some true := by
  unfold buildUpdateData
  rw [h]
  cases ch <;> simp [apply_ite]

theorem isEmpty_false_of_currentPrice (u : UpdateData) (x : JsNum)
    (h : u.currentPrice = some x) : u.isEmpty = false := by
  simp [UpdateData.isEmpty, h]

theorem isEmpty_false_of_flag (u : UpdateData) (b : Bool)
    (h : u.doesMetadataUpdated = some b) : u.isEmpty = false := by
  simp [UpdateData.isEmpty, h]

/-- Unfolding of reconcileSnapshot in the priced case. -/
theorem reconcileSnapshot_spec (s : ScrapedProductData) (st : ProductState) (now : ℕ)
    (pr : JsNum) (hs : s.price = some pr) :
    reconcileSnapshot s st now =
      ⟨(if (buildUpdateData s pr st.product (!jsNumEq st.product.currentPrice pr)).isEmpty
          then st.product
          else applyUpdate
            (buildUpdateData s pr st.product (!jsNumEq st.product.currentPrice pr)) st.product),
       (if !jsNumEq st.product.currentPrice pr
          then addPriceToHistory st.product.id pr none now st.history
          else st.history)⟩ := by
  unfold reconcileSnapshot
  rw [hs]

/-- Unfolding of reconcileSnapshot when the snapshot has no price. -/
theorem reconcileSnapshot_noPrice (s : ScrapedProductData) (st : ProductState) (now : ℕ)
    (hs : s.price = none) : reconcileSnapshot s st now = st := by
  unfold reconcileSnapshot
  rw [hs]

/-- The price field surviving an update whose currentPrice key is absent. -/
theorem applyUpdate_currentPrice_of_none (u : UpdateData) (p : Product)
    (h : u.currentPrice = none) : (applyUpdate u p).currentPrice = p.currentPrice := by
  simp [applyUpdate, h]

/-- C2: when the scraped price equals the stored currentPrice under the
exact strict comparison, reconciliation resolves without appending any
PriceHistory row, and a second run against the unchanged remote price
appends nothing either: the history after two runs is the initial history
(one seed row stays one seed row). -/
theorem reconcile_unchanged_price_appends_nothing
    (st : ProductState) (s : ScrapedProductData) (q : ℚ) (now1 now2 : ℕ)
    (hs : s.price = some (JsNum.num q)) (hp : st.product.currentPrice = JsNum.num q) :
    checkAndUpdateProductPrice (.snapshot s) st now1 = .ok (reconcileSnapshot s st now1) ∧
    (reconcileSnapshot s st now1).history = st.history ∧
    (reconcileSnapshot s (reconcileSnapshot s st now1) now2).history = st.history := by
  have hcp : ∀ stx : ProductState, stx.product.currentPrice = JsNum.num q → ∀ now : ℕ,
      (reconcileSnapshot s stx now).history = stx.history ∧
      (reconcileSnapshot s stx now).product.currentPrice = JsNum.num q := by
    intro stx hpx now
    rw [reconcileSnapshot_spec s stx now (JsNum.num q) hs]
    have hch : jsNumEq stx.product.currentPrice (JsNum.num q) = true := by
      rw [hpx]; exact jsNumEq_num_self q
    rw [hch]
    simp only [Bool.not_true]
    constructor
    · simp
    · dsimp only
      split
      · exact hpx
      · rw [applyUpdate_currentPrice_of_none _ _ (buildUpdateData_currentPrice_of_unchanged s _ _)]
        exact hpx
  obtain ⟨h1h, h1p⟩ := hcp st hp now1
  obtain ⟨h2h, _⟩ := hcp _ h1p now2
  exact ⟨rfl, h1h, by rw [h2h, h1h]⟩

/-- C2 witness: concrete instantiation at sampleState and a snapshot of the
same price 999. -/
theorem reconcile_unchanged_price_appends_nothing_witness :
    checkAndUpdateProductPrice (.snapshot snap999) sampleState 1 =
      .ok (reconcileSnapshot snap999 sampleState 1) ∧
    (reconcileSnapshot snap999 sampleState 1).history = sampleState.history ∧
    (reconcileSnapshot snap999 (reconcileSnapshot snap999 sampleState 1) 2).history =
      sampleState.history :=
  reconcile_unchanged_price_appends_nothing sampleState snap999 999 1 2 rfl rfl

/-- C5: when the scraped price differs from the stored currentPrice under
the exact strict comparison, reconciliation appends exactly one new
PriceHistory row carrying the scraped price, and afterwards the product
currentPrice equals that scraped price, which is also the price of the most
recent (last) PriceHistory entry. -/
theorem reconcile_price_change_appends_row
    (st : ProductState) (s : ScrapedProductData) (pr : JsNum) (now : ℕ)
    (hs : s.price = some pr)
    (hch : jsNumEq st.product.currentPrice pr = false) :
    checkAndUpdateProductPrice (.snapshot s) st now = .ok (reconcileSnapshot s st now) ∧
    (reconcileSnapshot s st now).history = st.history ++
      [{ productId := st.product.id, price := pr, availability := none, checkedAt := now }] ∧
    (reconcileSnapshot s st now).product.currentPrice = pr ∧
    (reconcileSnapshot s st now).history.getLast?.map PriceRow.price =
      some (reconcileSnapshot s st now).product.currentPrice := by
  have hu := buildUpdateData_currentPrice_of_changed s pr st.product
  have hne := isEmpty_false_of_currentPrice _ _ hu
  have hspec := reconcileSnapshot_spec s st now pr hs
  rw [hch] at hspec
  simp only [Bool.not_false, if_true, hne, Bool.false_eq_true, if_false] at hspec
  refine ⟨rfl, ?_, ?_, ?_⟩
  · rw [hspec]
    rfl
  · rw [hspec]
    simp [applyUpdate, hu]
  · rw [hspec]
    simp [applyUpdate, hu, addPriceToHistory, List.getLast?_concat]

/-- C5 witness: concrete instantiation, price drop from 999 to 799. -/
theorem reconcile_price_change_appends_row_witness :
    checkAndUpdateProductPrice (.snapshot snap799) sampleState 3 =
      .ok (reconcileSnapshot snap799 sampleState 3) ∧
    (reconcileSnapshot snap799 sampleState 3).history = sampleState.history ++
      [{ productId := sampleState.product.id, price := .num 799, availability := none,
         checkedAt := 3 }] ∧
    (reconcileSnapshot snap799 sampleState 3).product.currentPrice = .num 799 ∧
    (reconcileSnapshot snap799 sampleState 3).history.getLast?.map PriceRow.price =
      some (reconcileSnapshot snap799 sampleState 3).product.currentPrice :=
  reconcile_price_change_appends_row sampleState snap799 (.num 799) 3 rfl (by decide)

/-- C4: once a product doesMetadataUpdated flag is true, reconciliation
leaves its name, image and currency unchanged whatever the snapshot
contains; and when the flag is false and the scrape produced a price, the
reconciliation sets the flag to true. -/
theorem metadata_fill_once (st : ProductState) (s : ScrapedProductData) (now : ℕ) :
    (st.product.doesMetadataUpdated = true →
      ((reconcileSnapshot s st now).product.name = st.product.name ∧
       (reconcileSnapshot s st now).product.image = st.product.image ∧
       (reconcileSnapshot s st now).product.currency = st.product.currency)) ∧
    (st.product.doesMetadataUpdated = false → ∀ pr : JsNum, s.price = some pr →
      (reconcileSnapshot s st now).product.doesMetadataUpdated = true) := by
  constructor
  · intro hflag
    cases hs : s.price with
    | none => rw [reconcileSnapshot_noPrice s st now hs]; exact ⟨rfl, rfl, rfl⟩
    | some pr =>
      rw [reconcileSnapshot_spec s st now pr hs]
      obtain ⟨hn, hi, hc⟩ := buildUpdateData_metadata_done s pr st.product
        (!jsNumEq st.product.currentPrice pr) hflag
      dsimp only
      split
      · exact ⟨rfl, rfl, rfl⟩
      · simp [applyUpdate, hn, hi, hc]
  · intro hflag pr hs
    rw [reconcileSnapshot_spec s st now pr hs]
    have hu := buildUpdateData_metadata_missing s pr st.product
      (!jsNumEq st.product.currentPrice pr) hflag
    have hne := isEmpty_false_of_flag _ _ hu
    dsimp only
    rw [if_neg (by rw [hne]; exact Bool.false_ne_true)]
    simp [applyUpdate, hu]

/-- C4 witness: the flag protects metadata on sampleState (flag true) under
a snapshot that scrapes different metadata, and a first fill on the same
product with the flag cleared sets the flag. -/
theorem metadata_fill_once_witness :
    ((reconcileSnapshot { noPriceSnap with price := some (.num 5), name := some "Other" }
        sampleState 4).product.name = sampleState.product.name ∧
     (reconcileSnapshot { noPriceSnap with price := some (.num 5), name := some "Other" }
        sampleState 4).product.image = sampleState.product.image ∧
     (reconcileSnapshot { noPriceSnap with price := some (.num 5), name := some "Other" }
        sampleState 4).product.currency = sampleState.product.currency) ∧
    (reconcileSnapshot snap799
        ⟨{ sampleProduct with doesMetadataUpdated := false }, [sampleSeedRow]⟩
        4).product.doesMetadataUpdated = true :=
  ⟨(metadata_fill_once sampleState
      { noPriceSnap with price := some (.num 5), name := some "Other" } 4).1 rfl,
   (metadata_fill_once ⟨{ sampleProduct with doesMetadataUpdated := false }, [sampleSeedRow]⟩
      snap799 4).2 rfl (.num 799) rfl⟩

/-- Generalized accumulator invariant of the batch loop: the tallies and
the success-id list grow by exactly the non-throwing (resp. throwing)
items. -/
theorem batch_foldl_spec (now : ℕ) (items : List (ProductState × ScrapeOutcome)) :
    ∀ acc : BatchAcc,
      (items.foldl (batchStep now) acc).successCount =
        acc.successCount + (items.filter (fun it => it.2 ≠ ScrapeOutcome.throws)).length ∧
      (items.foldl (batchStep now) acc).failureCount =
        acc.failureCount + (items.filter (fun it => it.2 = ScrapeOutcome.throws)).length ∧
      (items.foldl (batchStep now) acc).successfulProductIds =
        acc.successfulProductIds ++
          (items.filter (fun it => it.2 ≠ ScrapeOutcome.throws)).map
            (fun it => it.1.product.id) := by
  induction items with
  | nil => intro acc; simp
  | cons hd tl ih =>
    intro acc
    obtain ⟨st, o⟩ := hd
    cases o with
    | throws =>
      have hstep : batchStep now acc (st, ScrapeOutcome.throws) =
          { acc with failureCount := acc.failureCount + 1, states := acc.states ++ [st] } := rfl
      obtain ⟨ih1, ih2, ih3⟩ := ih (batchStep now acc (st, ScrapeOutcome.throws))
      refine ⟨?_, ?_, ?_⟩
      · rw [List.foldl_cons, ih1, hstep]
        simp
      · rw [List.foldl_cons, ih2, hstep]
        simp [Nat.add_assoc, Nat.add_comm 1]
      · rw [List.foldl_cons, ih3, hstep]
        simp
    | snapshot s =>
      have hstep : batchStep now acc (st, ScrapeOutcome.snapshot s) =
          { acc with
            successCount := acc.successCount + 1
            successfulProductIds := acc.successfulProductIds ++ [st.product.id]
            states := acc.states ++ [reconcileSnapshot s st now] } := rfl
      obtain ⟨ih1, ih2, ih3⟩ := ih (batchStep now acc (st, ScrapeOutcome.snapshot s))
      refine ⟨?_, ?_, ?_⟩
      · rw [List.foldl_cons, ih1, hstep]
        simp [Nat.add_assoc, Nat.add_comm 1]
      · rw [List.foldl_cons, ih2, hstep]
        simp
      · rw [List.foldl_cons, ih3, hstep]
        simp

/-- Characterization of one checkAllProductPrices run: successes are the
items whose scrape did not throw, failures the items whose scrape threw, and
the ids handed to the bulk lastChecked update are exactly the ids of the
non-throwing items in order. -/
theorem checkAllProductPrices_spec (items : List (ProductState × ScrapeOutcome)) (now : ℕ) :
    (checkAllProductPrices items now).successCount =
      (items.filter (fun it => it.2 ≠ ScrapeOutcome.throws)).length ∧
    (checkAllProductPrices items now).failureCount =
      (items.filter (fun it => it.2 = ScrapeOutcome.throws)).length ∧
    (checkAllProductPrices items now).successfulProductIds =
      (items.filter (fun it => it.2 ≠ ScrapeOutcome.throws)).map (fun it => it.1.product.id) := by
  obtain ⟨h1, h2, h3⟩ := batch_foldl_spec now items {}
  exact ⟨by rw [checkAllProductPrices] at *; simpa using h1,
         by rw [checkAllProductPrices] at *; simpa using h2,
         by rw [checkAllProductPrices] at *; simpa using h3⟩

/-- C3: in a three-product batch where exactly one scrape throws and the
other two complete, checkAllProductPrices reports successCount 2 and
failureCount 1, and the bulk lastChecked update receives exactly the ids of
the two products whose reconciliation completed without error; the batch
itself always completes. -/
theorem batch_one_throw_of_three
    (st1 st2 st3 : ProductState) (o1 o2 o3 : ScrapeOutcome) (now : ℕ)
    (h : (o1 = .throws ∧ o2 ≠ .throws ∧ o3 ≠ .throws) ∨
         (o1 ≠ .throws ∧ o2 = .throws ∧ o3 ≠ .throws) ∨
         (o1 ≠ .throws ∧ o2 ≠ .throws ∧ o3 = .throws)) :
    (checkAllProductPrices [(st1, o1), (st2, o2), (st3, o3)] now).successCount = 2 ∧
    (checkAllProductPrices [(st1, o1), (st2, o2), (st3, o3)] now).failureCount = 1 ∧
    (checkAllProductPrices [(st1, o1), (st2, o2), (st3, o3)] now).successfulProductIds =
      ([(st1, o1), (st2, o2), (st3, o3)].filter
        (fun it => it.2 ≠ ScrapeOutcome.throws)).map (fun it => it.1.product.id) := by
  obtain ⟨h1, h2, h3⟩ := checkAllProductPrices_spec [(st1, o1), (st2, o2), (st3, o3)] now
  refine ⟨?_, ?_, h3⟩
  · rw [h1]
    rcases h with ⟨a, b, c⟩ | ⟨a, b, c⟩ | ⟨a, b, c⟩ <;> simp [List.filter, a, b, c]
  · rw [h2]
    rcases h with ⟨a, b, c⟩ | ⟨a, b, c⟩ | ⟨a, b, c⟩ <;> simp [List.filter, a, b, c]

/-- C3 witness: a concrete batch of three products where the second scrape
throws. -/
theorem batch_one_throw_of_three_witness :
    (checkAllProductPrices
      [(sampleState, .snapshot snap999),
       (⟨{ sampleProduct with id := "p2", url := "u2" }, []⟩, .throws),
       (⟨{ sampleProduct with id := "p3", url := "u3" }, []⟩, .snapshot snap799)]
      9).successCount = 2 ∧
    (checkAllProductPrices
      [(sampleState, .snapshot snap999),
       (⟨{ sampleProduct with id := "p2", url := "u2" }, []⟩, .throws),
       (⟨{ sampleProduct with id := "p3", url := "u3" }, []⟩, .snapshot snap799)]
      9).failureCount = 1 ∧
    (checkAllProductPrices
      [(sampleState, .snapshot snap999),
       (⟨{ sampleProduct with id := "p2", url := "u2" }, []⟩, .throws),
       (⟨{ sampleProduct with id := "p3", url := "u3" }, []⟩, .snapshot snap799)]
      9).successfulProductIds =
      ([(sampleState, ScrapeOutcome.snapshot snap999),
        (⟨{ sampleProduct with id := "p2", url := "u2" }, []⟩, ScrapeOutcome.throws),
        (⟨{ sampleProduct with id := "p3", url := "u3" }, []⟩, ScrapeOutcome.snapshot snap799)].filter
          (fun it => it.2 ≠ ScrapeOutcome.throws)).map (fun it => it.1.product.id) :=
  batch_one_throw_of_three sampleState
    ⟨{ sampleProduct with id := "p2", url := "u2" }, []⟩
    ⟨{ sampleProduct with id := "p3", url := "u3" }, []⟩
    (.snapshot snap999) .throws (.snapshot snap799) 9
    (Or.inr (Or.inl (by refine ⟨?_, rfl, ?_⟩ <;> intro hx <;> cases hx)))

/-- C1 counterexample: a snapshot without a price does not count as a
failure and is not excluded from the bulk lastChecked update.  In a
one-product batch whose scrape resolves with a priceless snapshot, the run
reports zero failures, one success, and passes the product id to the bulk
lastChecked update. -/
theorem missing_price_counted_success_cex :
    noPriceSnap.price = none ∧
    (checkAllProductPrices [(sampleState, .snapshot noPriceSnap)] 7).failureCount = 0 ∧
    (checkAllProductPrices [(sampleState, .snapshot noPriceSnap)] 7).successCount = 1 ∧
    (checkAllProductPrices [(sampleState, .snapshot noPriceSnap)] 7).successfulProductIds =
      [sampleState.product.id] :=
  ⟨rfl, rfl, rfl, rfl⟩

/-- C1 amended: a scrape that throws aborts its product without mutating
state, is tallied as a failure and its id is excluded from the bulk
lastChecked update; a scrape that resolves with a Snapshot without a price
also mutates none of the product own state (row and history unchanged),
but it is tallied as a success and its id is included in the bulk
lastChecked update. -/
theorem reconcile_throw_vs_missing_price
    (st : ProductState) (s : ScrapedProductData) (now : ℕ) (hs : s.price = none) :
    checkAndUpdateProductPrice .throws st now = .error () ∧
    checkAndUpdateProductPrice (.snapshot s) st now = .ok st ∧
    (∀ (items : List (ProductState × ScrapeOutcome)) (now2 : ℕ),
      (checkAllProductPrices items now2).failureCount =
        (items.filter (fun it => it.2 = ScrapeOutcome.throws)).length ∧
      (checkAllProductPrices items now2).successfulProductIds =
        (items.filter (fun it => it.2 ≠ ScrapeOutcome.throws)).map
          (fun it => it.1.product.id)) := by
  refine ⟨rfl, ?_, ?_⟩
  · show Except.ok (reconcileSnapshot s st now) = Except.ok st
    rw [reconcileSnapshot_noPrice s st now hs]
  · intro items now2
    obtain ⟨_, h2, h3⟩ := checkAllProductPrices_spec items now2
    exact ⟨h2, h3⟩

/-- C1 amended witness: concrete instantiation at sampleState with the
priceless snapshot, and a concrete two-product batch. -/
theorem reconcile_throw_vs_missing_price_witness :
    noPriceSnap.price = none ∧
    checkAndUpdateProductPrice .throws sampleState 7 = .error () ∧
    checkAndUpdateProductPrice (.snapshot noPriceSnap) sampleState 7 = .ok sampleState ∧
    (checkAllProductPrices
      [(sampleState, .snapshot noPriceSnap),
       (⟨{ sampleProduct with id := "p2", url := "u2" }, []⟩, .throws)] 7).failureCount = 1 ∧
    (checkAllProductPrices
      [(sampleState, .snapshot noPriceSnap),
       (⟨{ sampleProduct with id := "p2", url := "u2" }, []⟩, .throws)] 7).successfulProductIds =
      ["p1"] := by
  have h := reconcile_throw_vs_missing_price sampleState noPriceSnap 7 rfl
  have hb := h.2.2
    [(sampleState, .snapshot noPriceSnap),
     (⟨{ sampleProduct with id := "p2", url := "u2" }, []⟩, .throws)] 7
  exact ⟨rfl, h.1, h.2.1, hb.1.trans (by rfl), hb.2.trans (by rfl)⟩

/-- Loop invariant of fetchHTML against a server that always answers 503:
with j+1 attempts left, the loop makes j+1 further attempts, sleeps j times
with geometrically growing delays starting from the current delay, and ends
in the FetchError. -/
theorem fetchLoop_always503 (retries mult : ℕ) :
    ∀ (j attempt curDelay attempts : ℕ) (le : Option FetchFailure) (delays : List ℕ),
      fetchLoop (fun _ => .error (.httpError 503)) retries mult (j + 1) attempt curDelay le
          attempts delays =
        ⟨.fetchError retries, attempts + (j + 1),
         delays ++ (List.range j).map (fun i => curDelay * mult ^ i)⟩ := by
  intro j
  induction j with
  | zero =>
    intro attempt curDelay attempts le delays
    simp [fetchLoop, finalizeFetch, isRetryableError, isAxiosFailure]
  | succ n ih =>
    intro attempt curDelay attempts le delays
    have hstep : fetchLoop (fun _ => .error (.httpError 503)) retries mult (n + 1 + 1) attempt
        curDelay le attempts delays =
        fetchLoop (fun _ => .error (.httpError 503)) retries mult (n + 1) (attempt + 1)
          (curDelay * mult) (some (.httpError 503)) (attempts + 1) (delays ++ [curDelay]) := by
      simp [fetchLoop, isRetryableError]
    rw [hstep, ih]
    have hlist : (delays ++ [curDelay]) ++
        (List.range n).map (fun i => curDelay * mult * mult ^ i) =
        delays ++ (List.range (n + 1)).map (fun i => curDelay * mult ^ i) := by
      rw [List.append_assoc]
      congr 1
      rw [List.singleton_append, List.range_succ_eq_map, List.map_cons, List.map_map]
      congr 1
      · simp
      · have hf : ((fun i => curDelay * mult ^ i) ∘ Nat.succ) =
            fun i => curDelay * mult * mult ^ i := by
          funext i
          simp [Function.comp, pow_succ]
          ring
        rw [hf]
    rw [hlist]
    congr 1
    omega

/-- C6: against a server that always answers 503, a fetch configured with N
retries (N at least one), base delay and backoff factor B performs exactly N
attempts, the delay before the i-th retry being base times B to the power
i-1, and resolves in the FetchError; a 4xx status other than 429 is terminal
and raises the FetchError after exactly one attempt with no sleep. -/
theorem fetch_retry_backoff (retries base mult status : ℕ)
    (hr : 1 ≤ retries) (h4 : 400 ≤ status) (h4b : status < 500) (h429 : status ≠ 429) :
    fetchHTML (fun _ => .error (.httpError 503)) retries base mult =
      ⟨.fetchError retries, retries,
       (List.range (retries - 1)).map (fun i => base * mult ^ i)⟩ ∧
    fetchHTML (fun _ => .error (.httpError status)) retries base mult =
      ⟨.fetchError retries, 1, []⟩ := by
  obtain ⟨j, rfl⟩ : ∃ j, retries = j + 1 := ⟨retries - 1, by omega⟩
  constructor
  · unfold fetchHTML
    rw [fetchLoop_always503 (j + 1) mult j 1 base 0 none []]
    simp
  · unfold fetchHTML
    have hnr : isRetryableError (.httpError status) = false := by
      simp [isRetryableError]
      omega
    simp [fetchLoop, hnr, finalizeFetch, isAxiosFailure]

/-- C6 witness: the shipped configuration (3 retries, 1000 ms base delay,
backoff multiplier 2) under a permanent 503, and a terminal 404. -/
theorem fetch_retry_backoff_witness :
    (1 ≤ 3 ∧ 400 ≤ 404 ∧ 404 < 500 ∧ 404 ≠ 429) ∧
    fetchHTML (fun _ => .error (.httpError 503)) 3 1000 2 =
      ⟨.fetchError 3, 3, (List.range 2).map (fun i => 1000 * 2 ^ i)⟩ ∧
    fetchHTML (fun _ => .error (.httpError 404)) 3 1000 2 =
      ⟨.fetchError 3, 1, []⟩ :=
  ⟨⟨by decide, by decide, by decide, by decide⟩,
   (fetch_retry_backoff 3 1000 2 404 (by decide) (by decide) (by decide) (by decide)).1,
   (fetch_retry_backoff 3 1000 2 404 (by decide) (by decide) (by decide) (by decide)).2⟩

/-- C8: starting an already-started scheduler is a no-op (one job, so a
single stop fully stops scheduling), start makes isRunning true, stopping a
stopped scheduler is a no-op, isRunning is true exactly when a job exists,
and the manual trigger runs one batch without changing the job state. -/
theorem scheduler_state_machine (s : SchedulerState) (cron cron2 : String)
    (items : List (ProductState × ScrapeOutcome)) (now : ℕ) :
    startPriceChecker cron2 (startPriceChecker cron s) = startPriceChecker cron s ∧
    isRunning (startPriceChecker cron s) = true ∧
    stopPriceChecker (startPriceChecker cron s) = { priceCheckJob := none } ∧
    stopPriceChecker { priceCheckJob := none } = { priceCheckJob := none } ∧
    (isRunning s = true ↔ s.priceCheckJob ≠ none) ∧
    (triggerManualPriceCheck s items now).1 = s ∧
    (triggerManualPriceCheck s items now).2 = checkAllProductPrices items now := by
  obtain ⟨job⟩ := s
  cases job <;>
    simp [startPriceChecker, stopPriceChecker, isRunning, triggerManualPriceCheck]

/-- C9: when a product with the given URL already exists, createProduct and
createProductByUrl both return the existing product with the store
unchanged, performing no write and raising no duplicate error; the scrape of
createProductByUrl is never reached (here it would throw). -/
theorem create_existing_url_idempotent
    (store : Store) (input : CreateProductInput) (url : String) (p q : Product)
    (outcome : ScrapeOutcome) (domainOpt : Option String) (newId : String) (now : ℕ)
    (h1 : findProductByUrl store input.url = some p)
    (h2 : findProductByUrl store url = some q) :
    createProduct input store newId now = (p, store) ∧
    createProductByUrl url outcome domainOpt store newId now = .ok (q, store) := by
  constructor
  · unfold createProduct
    rw [h1]
  · unfold createProductByUrl
    rw [h2]

/-- A store already holding sampleProduct. -/
def sampleStore : Store := ⟨[sampleProduct], [sampleSeedRow]⟩

/-- An explicit-field creation request for the URL of sampleProduct. -/
def sampleInput : CreateProductInput :=
  { name := "W2", url := "https://example.com/a", currentPrice := .num 5,
    domain := "example.com", productId := "sku1" }

/-- C9 witness: creating twice by the URL of sampleProduct, against a store
already holding it, with a scrape outcome that would throw. -/
theorem create_existing_url_idempotent_witness :
    findProductByUrl sampleStore sampleInput.url = some sampleProduct ∧
    findProductByUrl sampleStore "https://example.com/a" = some sampleProduct ∧
    createProduct sampleInput sampleStore "new1" 9 = (sampleProduct, sampleStore) ∧
    createProductByUrl "https://example.com/a" .throws none sampleStore "new1" 9 =
      .ok (sampleProduct, sampleStore) := by
  have h := create_existing_url_idempotent sampleStore sampleInput "https://example.com/a"
    sampleProduct sampleProduct .throws none "new1" 9 rfl rfl
  exact ⟨rfl, rfl, h.1, h.2⟩

/-- The empty product store. -/
def emptyStore : Store := ⟨[], []⟩

/-- C10: when the URL is new and the scrape resolves without a price or with
a price of exactly 0, createProductByUrl still succeeds: it inserts the
product with currentPrice 0 and a single seed PriceHistory row of price 0. -/
theorem createProductByUrl_zero_price
    (url : String) (s : ScrapedProductData) (domainOpt : Option String) (store : Store)
    (newId : String) (now : ℕ)
    (h0 : findProductByUrl store url = none)
    (hp : s.price = none ∨ s.price = some (JsNum.num 0)) :
    ∃ prod : Product,
      createProductByUrl url (.snapshot s) domainOpt store newId now =
        .ok (prod,
          { products := store.products ++ [prod]
            history := store.history ++
              [{ productId := newId, price := JsNum.num 0,
                 availability := some (jsOrStr s.availability "InStock"),
                 checkedAt := now }] }) ∧
      prod.currentPrice = JsNum.num 0 := by
  have hz : jsNumOrZero s.price = JsNum.num 0 := by
    rcases hp with h | h <;> rw [h] <;> simp [jsNumOrZero]
  refine ⟨{ id := newId, name := jsOrStr s.name "Unknown", image := s.image, url := url,
            domain := jsOrStr domainOpt "unknown.com", currency := jsOrStr s.currency "INR",
            availability := jsOrStr s.availability "InStock", sku := s.sku, mpn := s.mpn,
            currentPrice := JsNum.num 0 }, ?_, rfl⟩
  unfold createProductByUrl
  rw [h0]
  dsimp only
  rw [hz]

/-- C10 witness: creating by a fresh URL whose scrape returned no price. -/
theorem createProductByUrl_zero_price_witness :
    findProductByUrl emptyStore "https://x.example/p" = none ∧
    (noPriceSnap.price = none ∨ noPriceSnap.price = some (JsNum.num 0)) ∧
    (∃ prod : Product,
      createProductByUrl "https://x.example/p" (.snapshot noPriceSnap) (some "x.example")
          emptyStore "n1" 11 =
        .ok (prod,
          { products := emptyStore.products ++ [prod]
            history := emptyStore.history ++
              [{ productId := "n1", price := JsNum.num 0,
                 availability := some (jsOrStr noPriceSnap.availability "InStock"),
                 checkedAt := 11 }] }) ∧
      prod.currentPrice = JsNum.num 0) :=
  ⟨rfl, Or.inl rfl,
   createProductByUrl_zero_price "https://x.example/p" noPriceSnap (some "x.example")
     emptyStore "n1" 11 rfl (Or.inl rfl)⟩

/-- A parseable JSON-LD block declaring type Offer with a price. -/
def offerBlock : JsonLdObj := { atType := some "Offer", offersPrice := some "5" }

/-- A document whose only JSON-LD block is offerBlock and whose selectors
match nothing. -/
def offerDom : Dom :=
  { attrContent := fun _ => none, firstText := fun _ => "", firstAttr := fun _ _ => none,
    jsonLd := [some offerBlock] }

/-- A site config requesting structured data first with no target type
configured. -/
def jsonLdFirstNoTargetConfig : ScraperSiteConfig :=
  { myntraConfig with jsonLdType := none }

/-- C7 counterexample: with no target type configured, extraction does not
accept an arbitrary block — a parseable Offer block passes the type gate and
carries a price, yet extraction accepts nothing (the scraped object stays
empty) and the code falls back to selector extraction, losing the price. -/
theorem jsonld_nontarget_type_skipped_cex :
    typeGateOpen none offerBlock = true ∧
    extractJsonLd [some offerBlock] none = none ∧
    (mapJsonLdProduct offerBlock).price = some (JsNum.num 5) ∧
    scrapeProductExtract offerDom jsonLdFirstNoTargetConfig =
      scrapeWithSelectors offerDom jsonLdFirstNoTargetConfig ∧
    (scrapeProductExtract offerDom jsonLdFirstNoTargetConfig).price = none :=
  ⟨rfl, rfl, by decide, rfl, by decide⟩

/-- The block-acceptance test performed by the extractJsonLd loop body: a
parsed block is accepted when the type gate is open and its declared type is
the literal "Product". -/
def acceptBlock (targetType : Option String) : Option JsonLdObj → Option JsonLdObj
  | none => none
  | some j =>
    if typeGateOpen targetType j && j.atType == some "Product" then some j else none

/-- C7 amended: extraction accepts the first parseable block whose declared
type is the literal "Product" and which passes the configured target-type
gate; unparseable blocks are skipped, never raised; when the site config
requests structured data first, selector extraction runs exactly when no
block was accepted; and an accepted block always maps to a snapshot with a
non-empty currency, so an accepted snapshot never has zero non-empty
fields. -/
theorem extractJsonLd_first_product_block
    (blocks : List (Option JsonLdObj)) (targetType : Option String)
    (dom : Dom) (cfg : ScraperSiteConfig) (h : cfg.useJsonLd = true) :
    extractJsonLd blocks targetType =
      (blocks.findSome? (acceptBlock targetType)).map mapJsonLdProduct ∧
    (extractJsonLd dom.jsonLd cfg.jsonLdType = none →
      scrapeProductExtract dom cfg = scrapeWithSelectors dom cfg) ∧
    (∀ d : ScrapedProductData, extractJsonLd dom.jsonLd cfg.jsonLdType = some d →
      scrapeProductExtract dom cfg = d) ∧
    (∀ j : JsonLdObj, jsTruthyStr (mapJsonLdProduct j).currency = true) := by
  refine ⟨?_, ?_, ?_, ?_⟩
  · induction blocks with
    | nil => rfl
    | cons b rest ih =>
      cases b with
      | none =>
        rw [show extractJsonLd (none :: rest) targetType = extractJsonLd rest targetType
              from rfl, ih]
        rfl
      | some j =>
        by_cases hc : (typeGateOpen targetType j && j.atType == some "Product") = true
        · simp [extractJsonLd, hc, List.findSome?_cons, acceptBlock]
        · rw [show extractJsonLd (some j :: rest) targetType =
                (if typeGateOpen targetType j && j.atType == some "Product" then
                  some (mapJsonLdProduct j) else extractJsonLd rest targetType) from rfl]
          rw [if_neg hc, ih]
          simp [List.findSome?_cons, acceptBlock, hc]
  · intro hnone
    simp [scrapeProductExtract, h, hnone]
  · intro d hd
    simp [scrapeProductExtract, h, hd]
  · intro j
    cases hoc : j.offersCurrency with
    | none => simp [mapJsonLdProduct, jsOrStr, jsTruthyStr, hoc]
    | some c =>
      simp only [mapJsonLdProduct, jsOrStr, jsTruthyStr, hoc]
      split
      · simp
      · next hne => simpa using hne

/-- A parseable JSON-LD Product block as in scenario A of the specification. -/
def productBlock : JsonLdObj :=
  { atType := some "Product", name := some "Widget", offersPrice := some "999",
    offersCurrency := some "INR" }

/-- A document whose only JSON-LD block is productBlock. -/
def productDom : Dom :=
  { attrContent := fun _ => none, firstText := fun _ => "", firstAttr := fun _ _ => none,
    jsonLd := [some productBlock] }

/-- C7 amended witness: the myntra config (structured data first, target
type Product) on a document with one Product block of price 999. -/
theorem extractJsonLd_first_product_block_witness :
    myntraConfig.useJsonLd = true ∧
    extractJsonLd [some productBlock] (some "Product") =
      (([some productBlock].findSome? (acceptBlock (some "Product"))).map mapJsonLdProduct) ∧
    scrapeProductExtract productDom myntraConfig = mapJsonLdProduct productBlock ∧
    (mapJsonLdProduct productBlock).price = some (JsNum.num 999) := by
  have h := extractJsonLd_first_product_block [some productBlock] (some "Product")
    productDom myntraConfig rfl
  exact ⟨rfl, h.1, h.2.2.1 (mapJsonLdProduct productBlock) (by decide), by decide⟩

end PriceTracker
